import Mathlib

/-!
# Amromeet booking backend — shallow embedding

A shallow embedding of the booking lifecycle of the amromeet backend
(`src/routes/bookings.js`, `src/routes/events.js`, schema in
`src/migrations/001_init_schema.sql`) and proofs about it.

Modelling conventions:
* Database rows become Lean structures; a table is a `List` of rows, and the
  whole store is `DBState`.
* Instants (`TIMESTAMP` columns such as `scheduled_at`, `end_time`) are `Nat`
  minutes; the code compares them with `<`/`>` only, and computes
  `end = start + duration_minutes`, so minute granularity is exact.
* `day_of_week` strings (`'Sunday'..'Saturday'`, produced by JS `getDay()`)
  become `Nat` (0 = Sunday); the projection of an instant to its day of week
  and time of day (`toTimeString().slice(0,5)`) becomes `dayOfWeekOf` and
  `timeOfDayOf`.  The claims only need that every route uses the *same*
  projection, which is true of the source (all four sites inline the same
  two lines of JS).
* UUIDs become `Nat` identifiers.
* Each `pool.query` call is one atomic step; the routes open no transaction
  (`BEGIN`/`COMMIT` appear nowhere in the repository), so a route is a
  *sequence* of individually-atomic queries.  Sequential executions are the
  functions below; the check-then-insert race of `POST /` is modelled
  separately by `raceCreateCreate`.
* The external collaborators (Google Meet, e-mail, `setTimeout` reminders)
  do not touch the store; the Meet provisioner's outcome is passed in as an
  `Option MeetInfo` (`none` = the `createGoogleMeetEvent` call threw and the
  `catch` left both variables `null`).
-/

namespace Amromeet

/-- Booking `status` column; the routes only ever write `'confirmed'`
(schema default) and `'cancelled'`. -/
inductive BookingStatus where
  | confirmed
  | cancelled
deriving DecidableEq

/-- A row of `event_types` (the columns the booking routes read). -/
structure EventType where
  id : Nat
  userId : Nat
  name : String
  durationMinutes : Nat
  isActive : Bool
  deletedAt : Option Nat
deriving DecidableEq

/-- A row of `availability_slots`.  `startTime`/`endTime` are local
times of day in minutes since midnight (`TIME` columns). -/
structure AvailabilitySlot where
  id : Nat
  eventTypeId : Nat
  dayOfWeek : Nat
  startTime : Nat
  endTime : Nat
  isActive : Bool
deriving DecidableEq

/-- A row of `bookings` (the columns the routes read or write). -/
structure Booking where
  id : Nat
  eventTypeId : Nat
  userId : Nat
  guestName : String
  guestEmail : String
  guestPhone : Option String
  guestTimezone : Option String
  scheduledAt : Nat
  endTime : Nat
  durationMinutes : Nat
  googleMeetLink : Option String
  googleEventId : Option String
  status : BookingStatus
  cancelledAt : Option Nat
  cancellationReason : Option String
  deletedAt : Option Nat
deriving DecidableEq

/-- A row of `analytics`; `UNIQUE(user_id, event_type_id, date)`,
counter columns default to `0`. -/
structure AnalyticsRow where
  userId : Nat
  eventTypeId : Nat
  date : Nat
  bookingCount : Nat
  cancellationCount : Nat
deriving DecidableEq

/-- The guest fields of a booking request body. -/
structure Guest where
  name : String
  email : String
  phone : Option String
  timezone : Option String
deriving DecidableEq

/-- Result of a successful `createGoogleMeetEvent` call. -/
structure MeetInfo where
  meetLink : String
  eventId : String
deriving DecidableEq

/-- The store: the four tables the booking/event routes touch. -/
structure DBState where
  eventTypes : List EventType
  slots : List AvailabilitySlot
  bookings : List Booking
  analytics : List AnalyticsRow
deriving DecidableEq

/-- Day of week of an instant, 0 = Sunday (JS `Date.getDay()`). -/
def dayOfWeekOf (t : Nat) : Nat := (t / 1440) % 7

/-- Time of day of an instant in minutes (JS `toTimeString().slice(0,5)`). -/
def timeOfDayOf (t : Nat) : Nat := t % 1440

/-- The conflict query of `POST /` (bookings.js:39-44):
`status = 'confirmed' AND scheduled_at < endT AND end_time > startT`,
with no `deleted_at` filter. -/
def conflictExists (bs : List Booking) (etId startT endT : Nat) : Bool :=
  bs.any fun b =>
    b.eventTypeId == etId && decide (b.status = .confirmed)
      && decide (b.scheduledAt < endT) && decide (b.endTime > startT)

/-- The conflict query of `PUT /:bookingId/reschedule` (bookings.js:468-473):
as `conflictExists` but additionally `id != selfId`. -/
def rescheduleConflictExists (bs : List Booking) (etId selfId startT endT : Nat) : Bool :=
  bs.any fun b =>
    b.eventTypeId == etId && !(b.id == selfId) && decide (b.status = .confirmed)
      && decide (b.scheduledAt < endT) && decide (b.endTime > startT)

/-- Per-row effect of the `availability_slots` deactivation UPDATE
(bookings.js:108-121): rows of the event type and day whose half-open
time-of-day interval intersects the booked window become inactive. -/
def consumeSlotRow (etId day startT endT : Nat) (s : AvailabilitySlot) : AvailabilitySlot :=
  if s.eventTypeId == etId && s.dayOfWeek == day
      && decide (s.startTime < endT) && decide (s.endTime > startT) then
    { s with isActive := false }
  else s

/-- The `UPDATE availability_slots ... SET is_active = FALSE` of booking
creation / reschedule, applied to the whole table. -/
def consumeSlot (slots : List AvailabilitySlot) (etId day startT endT : Nat) :
    List AvailabilitySlot :=
  slots.map (consumeSlotRow etId day startT endT)

/-- Per-row effect of the `availability_slots` reactivation UPDATE
(bookings.js:365-371, 485-489): only rows whose start *exactly equals* the
original booking start become active. -/
def releaseSlotRow (etId day startT : Nat) (s : AvailabilitySlot) : AvailabilitySlot :=
  if s.eventTypeId == etId && s.dayOfWeek == day && s.startTime == startT then
    { s with isActive := true }
  else s

/-- The `UPDATE availability_slots ... SET is_active = TRUE` of cancellation /
reschedule release, applied to the whole table. -/
def releaseSlot (slots : List AvailabilitySlot) (etId day startT : Nat) :
    List AvailabilitySlot :=
  slots.map (releaseSlotRow etId day startT)

/-- The two counter columns the analytics upserts write. -/
inductive AnalyticsField where
  | bookingCount
  | cancellationCount
deriving DecidableEq

/-- Key predicate of `ON CONFLICT (user_id, event_type_id, date)`. -/
def AnalyticsRow.keyMatch (r : AnalyticsRow) (uid etId date : Nat) : Bool :=
  r.userId == uid && r.eventTypeId == etId && r.date == date

/-- The freshly inserted analytics row: the given counter holds the delta,
the other counter its schema default `0`. -/
def initRow (uid etId date : Nat) (field : AnalyticsField) (delta : Nat) : AnalyticsRow :=
  { userId := uid, eventTypeId := etId, date := date,
    bookingCount := if field = .bookingCount then delta else 0,
    cancellationCount := if field = .cancellationCount then delta else 0 }

/-- `DO UPDATE SET <field> = <field> + delta` on an existing row. -/
def bumpRow (field : AnalyticsField) (delta : Nat) (r : AnalyticsRow) : AnalyticsRow :=
  match field with
  | .bookingCount => { r with bookingCount := r.bookingCount + delta }
  | .cancellationCount => { r with cancellationCount := r.cancellationCount + delta }

/-- The `INSERT ... ON CONFLICT (user_id, event_type_id, date) DO UPDATE`
upsert used by both analytics writes (bookings.js:86-92 with
`booking_count`, bookings.js:380-386 with `cancellation_count`; both use
delta 1).  The schema's UNIQUE key makes the first match the only match. -/
def analyticsIncrement : List AnalyticsRow → Nat → Nat → Nat → AnalyticsField → Nat →
    List AnalyticsRow
  | [], uid, etId, date, field, delta => [initRow uid etId date field delta]
  | r :: rs, uid, etId, date, field, delta =>
    if r.keyMatch uid etId date then bumpRow field delta r :: rs
    else r :: analyticsIncrement rs uid etId date field delta

/-- Total of the `booking_count` column over the rows of one key. -/
def bookingCountFor (rows : List AnalyticsRow) (uid etId date : Nat) : Nat :=
  ((rows.filter (·.keyMatch uid etId date)).map (·.bookingCount)).sum

/-- Total of the `cancellation_count` column over the rows of one key. -/
def cancellationCountFor (rows : List AnalyticsRow) (uid etId date : Nat) : Nat :=
  ((rows.filter (·.keyMatch uid etId date)).map (·.cancellationCount)).sum

/-- The event-type lookup of `POST /` (bookings.js:22-28):
`is_active = TRUE AND deleted_at IS NULL` (the JOIN on `users` is a foreign
key and never filters). -/
def findEventType (ets : List EventType) (etId : Nat) : Option EventType :=
  ets.find? fun et => et.id == etId && et.isActive && et.deletedAt.isNone

/-- Outcome of `POST /` as the route reports it. -/
inductive CreateResult where
  | notFound
  | conflict
  | created (b : Booking)
deriving DecidableEq

/-- The row the booking INSERT of `POST /` writes (bookings.js:73-79):
`end_time = scheduled_at + duration_minutes`, `status` left to its schema
default `'confirmed'`, Meet fields from the provisioning attempt. -/
def newBooking (newId etId : Nat) (et : EventType) (g : Guest) (startT : Nat)
    (provisioned : Option MeetInfo) : Booking :=
  { id := newId, eventTypeId := etId, userId := et.userId,
    guestName := g.name, guestEmail := g.email,
    guestPhone := g.phone, guestTimezone := g.timezone,
    scheduledAt := startT, endTime := startT + et.durationMinutes,
    durationMinutes := et.durationMinutes,
    googleMeetLink := provisioned.map (·.meetLink),
    googleEventId := provisioned.map (·.eventId),
    status := .confirmed, cancelledAt := none, cancellationReason := none,
    deletedAt := none }

/-- The post-insert writes of `POST /`: the INSERT itself, the analytics
upsert, and the slot deactivation (each in its own try/catch in the source;
they are store updates and modelled as succeeding). -/
def commitBooking (st : DBState) (b : Booking) (et : EventType) (today : Nat) : DBState :=
  { st with
    bookings := st.bookings ++ [b],
    analytics := analyticsIncrement st.analytics et.userId b.eventTypeId today
      .bookingCount 1,
    slots := consumeSlot st.slots b.eventTypeId (dayOfWeekOf b.scheduledAt)
      (timeOfDayOf b.scheduledAt) (timeOfDayOf b.endTime) }

/-- `POST /api/bookings` (bookings.js:12-217).  `provisioned` is the outcome
of the `createGoogleMeetEvent` call (`none` when it threw); `newId` is the
generated UUID; `today` is the analytics date. -/
def createBooking (st : DBState) (etId : Nat) (g : Guest) (startT newId : Nat)
    (provisioned : Option MeetInfo) (today : Nat) : CreateResult × DBState :=
  match findEventType st.eventTypes etId with
  | none => (.notFound, st)
  | some et =>
    let endT := startT + et.durationMinutes
    if conflictExists st.bookings etId startT endT then (.conflict, st)
    else
      let b := newBooking newId etId et g startT provisioned
      (.created b, commitBooking st b et today)

/-- Outcome of `PUT /:bookingId/cancel` as the route reports it
(`RETURNING id, status, cancelled_at`). -/
inductive CancelResult where
  | notFound
  | ok (id : Nat) (status : BookingStatus) (cancelledAt : Nat)
deriving DecidableEq

/-- The booking lookup of `PUT /:bookingId/cancel` (bookings.js:329-333):
`id`, `user_id`, `deleted_at IS NULL` — and **no status filter**. -/
def findBookingForCancel (bs : List Booking) (bookingId userId : Nat) : Option Booking :=
  bs.find? fun b => b.id == bookingId && b.userId == userId && b.deletedAt.isNone

/-- Per-row effect of the cancel UPDATE (bookings.js:350-355):
unconditional on status. -/
def cancelUpdate (bookingId userId : Nat) (reason : Option String) (now : Nat)
    (b : Booking) : Booking :=
  if b.id == bookingId && b.userId == userId then
    { b with status := .cancelled, cancelledAt := some now, cancellationReason := reason }
  else b

/-- `PUT /api/bookings/:bookingId/cancel` (bookings.js:324-441).  The
analytics upsert uses the *event type's* `user_id` (bookings.js:385); the
event-type row always exists by foreign key, but the lookup is modelled as
written (a missing row only skips the analytics write, its first use being
inside that try/catch). -/
def cancelBooking (st : DBState) (bookingId userId : Nat) (reason : Option String)
    (now today : Nat) : CancelResult × DBState :=
  match findBookingForCancel st.bookings bookingId userId with
  | none => (.notFound, st)
  | some booking =>
    let bookings := st.bookings.map (cancelUpdate bookingId userId reason now)
    let slots := releaseSlot st.slots booking.eventTypeId
      (dayOfWeekOf booking.scheduledAt) (timeOfDayOf booking.scheduledAt)
    let analytics :=
      match st.eventTypes.find? (fun et => et.id == booking.eventTypeId) with
      | some et => analyticsIncrement st.analytics et.userId booking.eventTypeId today
          .cancellationCount 1
      | none => st.analytics
    (.ok bookingId .cancelled now,
      { st with bookings := bookings, slots := slots, analytics := analytics })

/-- Outcome of `PUT /:bookingId/reschedule` as the route reports it. -/
inductive RescheduleResult where
  | notFound
  | conflict
  | ok (id : Nat) (scheduledAt : Nat) (status : BookingStatus)
deriving DecidableEq

/-- The booking lookup of `PUT /:bookingId/reschedule` (bookings.js:453-457):
`id`, `user_id`, `status = 'confirmed'` (no `deleted_at` filter here). -/
def findBookingForReschedule (bs : List Booking) (bookingId userId : Nat) : Option Booking :=
  bs.find? fun b => b.id == bookingId && b.userId == userId && decide (b.status = .confirmed)

/-- Per-row effect of the reschedule UPDATE (bookings.js:511-515):
`WHERE id = $3`, setting only `scheduled_at` and `end_time`. -/
def rescheduleUpdate (bookingId newStart newEnd : Nat) (b : Booking) : Booking :=
  if b.id == bookingId then { b with scheduledAt := newStart, endTime := newEnd } else b

/-- `PUT /api/bookings/:bookingId/reschedule` (bookings.js:444-554):
`newEnd = newStart + duration_minutes` of the stored booking; conflict check
excludes the booking itself; on success release the old exact-start slot,
consume the new window, update the booking row in place. -/
def rescheduleBooking (st : DBState) (bookingId userId newStart : Nat) :
    RescheduleResult × DBState :=
  match findBookingForReschedule st.bookings bookingId userId with
  | none => (.notFound, st)
  | some old =>
    let newEnd := newStart + old.durationMinutes
    if rescheduleConflictExists st.bookings old.eventTypeId bookingId newStart newEnd then
      (.conflict, st)
    else
      let slots1 := releaseSlot st.slots old.eventTypeId
        (dayOfWeekOf old.scheduledAt) (timeOfDayOf old.scheduledAt)
      let slots2 := consumeSlot slots1 old.eventTypeId
        (dayOfWeekOf newStart) (timeOfDayOf newStart) (timeOfDayOf newEnd)
      let bookings := st.bookings.map (rescheduleUpdate bookingId newStart newEnd)
      (.ok bookingId newStart .confirmed,
        { st with slots := slots2, bookings := bookings })

/-- Query-string filters of `GET /api/bookings` (bookings.js:222-251). -/
structure ListFilters where
  status : Option BookingStatus
  eventTypeId : Option Nat
  startDate : Option Nat
  endDate : Option Nat
deriving DecidableEq

/-- The WHERE clause of `GET /api/bookings`: always `user_id = $1 AND
deleted_at IS NULL`, plus each optional filter. -/
def matchesFilters (uid : Nat) (f : ListFilters) (b : Booking) : Bool :=
  b.userId == uid && b.deletedAt.isNone
    && (match f.status with | none => true | some s => decide (b.status = s))
    && (match f.eventTypeId with | none => true | some e => b.eventTypeId == e)
    && (match f.startDate with | none => true | some d => decide (d ≤ b.scheduledAt))
    && (match f.endDate with | none => true | some d => decide (b.scheduledAt ≤ d))

/-- `GET /api/bookings`: filter, `ORDER BY scheduled_at DESC`,
`LIMIT $n OFFSET $m`. -/
def listBookings (st : DBState) (uid : Nat) (f : ListFilters) (limit offsetN : Nat) :
    List Booking :=
  ((((st.bookings.filter (matchesFilters uid f)).mergeSort
      (fun a b => b.scheduledAt ≤ a.scheduledAt)).drop offsetN).take limit)

/-- `GET /api/bookings/:bookingId` (bookings.js:284-321):
`id = $1 AND user_id = $2 AND deleted_at IS NULL`. -/
def getBooking (st : DBState) (bookingId uid : Nat) : Option Booking :=
  st.bookings.find? fun b => b.id == bookingId && b.userId == uid && b.deletedAt.isNone

/-- Outcome of `DELETE /api/events/availability/:slotId`. -/
inductive DeleteSlotResult where
  | notFound
  | deleted (id : Nat)
deriving DecidableEq

/-- `DELETE /api/events/availability/:slotId` (events.js:292-310).  The
handler runs behind `authMiddleware`, so `callerUserId` is the authenticated
caller — but the single UPDATE filters on the slot id alone and the handler
never reads `req.userId`. -/
def deleteAvailabilitySlot (st : DBState) (slotId _callerUserId : Nat) :
    DeleteSlotResult × DBState :=
  let slots := st.slots.map fun s =>
    if s.id == slotId then { s with isActive := false } else s
  if st.slots.any (fun s => s.id == slotId) then
    (.deleted slotId, { st with slots := slots })
  else (.notFound, { st with slots := slots })

/-- Two concurrent `POST /` requests for the same interval on the same event
type.  Each `pool.query` is atomic on its own, but no transaction wraps the
conflict check and the INSERT (no `BEGIN`/`COMMIT` anywhere in the routes),
so the interleaving in which both conflict checks run before either INSERT
commits is a possible execution; this definition is that interleaving, each
request otherwise performing exactly the steps of `createBooking`. -/
def raceCreateCreate (st : DBState) (etId : Nat) (g1 g2 : Guest) (startT id1 id2 : Nat)
    (today : Nat) : CreateResult × CreateResult × DBState :=
  match findEventType st.eventTypes etId with
  | none => (.notFound, .notFound, st)
  | some et =>
    let endT := startT + et.durationMinutes
    let ok1 := !(conflictExists st.bookings etId startT endT)
    let ok2 := !(conflictExists st.bookings etId startT endT)
    let b1 := newBooking id1 etId et g1 startT none
    let b2 := newBooking id2 etId et g2 startT none
    let st1 := if ok1 then commitBooking st b1 et today else st
    let st2 := if ok2 then commitBooking st1 b2 et today else st1
    ((if ok1 then .created b1 else .conflict),
     (if ok2 then .created b2 else .conflict), st2)

/-! ## The booking invariant (claim C1) -/

/-- The relation the spec's invariant asserts of every pair of distinct
booking rows: distinct primary keys (schema `PRIMARY KEY`), and if both are
confirmed on the same event type their half-open intervals do not overlap. -/
def BookingRel (b1 b2 : Booking) : Prop :=
  b1.id ≠ b2.id ∧
    (b1.eventTypeId = b2.eventTypeId → b1.status = .confirmed → b2.status = .confirmed →
      ¬(b1.scheduledAt < b2.endTime ∧ b2.scheduledAt < b1.endTime))

/-- The inductive invariant over the bookings table. -/
def BookingsInv (bs : List Booking) : Prop := bs.Pairwise BookingRel

/-- States reachable by any sequence of `createBooking`, `cancelBooking` and
`rescheduleBooking` from a store with no bookings.  The freshness hypothesis
of the `create` step is the schema's `PRIMARY KEY` on `bookings.id` (the
route inserts a fresh `uuidv4()`; a duplicate key would make the INSERT
fail). -/
inductive Reachable : DBState → Prop where
  | init (ets : List EventType) (slots : List AvailabilitySlot)
      (rows : List AnalyticsRow) :
      Reachable { eventTypes := ets, slots := slots, bookings := [], analytics := rows }
  | create (st : DBState) (etId : Nat) (g : Guest) (startT newId : Nat)
      (prov : Option MeetInfo) (today : Nat) :
      Reachable st → (∀ b ∈ st.bookings, b.id ≠ newId) →
      Reachable (createBooking st etId g startT newId prov today).2
  | cancel (st : DBState) (bookingId userId : Nat) (reason : Option String)
      (now today : Nat) :
      Reachable st → Reachable (cancelBooking st bookingId userId reason now today).2
  | reschedule (st : DBState) (bookingId userId newStart : Nat) :
      Reachable st → Reachable (rescheduleBooking st bookingId userId newStart).2

/-! ## Concrete fixtures used by the witnesses and counterexamples -/

/-- A 30-minute active event type owned by user 7. -/
def sampleEventType : EventType :=
  { id := 1, userId := 7, name := "Intro call", durationMinutes := 30,
    isActive := true, deletedAt := none }

def sampleGuest : Guest :=
  { name := "Ada", email := "ada@example.com", phone := none, timezone := none }

def sampleGuest2 : Guest :=
  { name := "Ben", email := "ben@example.com", phone := none, timezone := none }

/-- Store holding the sample event type and no bookings. -/
def emptyStore : DBState :=
  { eventTypes := [sampleEventType], slots := [], bookings := [], analytics := [] }

/-- `emptyStore` after booking minutes 600–630 (booking id 11). -/
def storeOne : DBState := (createBooking emptyStore 1 sampleGuest 600 11 none 0).2

/-- `storeOne` after booking minutes 630–660 (booking id 12). -/
def storeTwo : DBState := (createBooking storeOne 1 sampleGuest2 630 12 none 0).2

/-- A confirmed booking 600–630 of user 7 on event type 1. -/
def sampleBooking : Booking :=
  { id := 21, eventTypeId := 1, userId := 7,
    guestName := "Ada", guestEmail := "ada@example.com",
    guestPhone := none, guestTimezone := none,
    scheduledAt := 600, endTime := 630, durationMinutes := 30,
    googleMeetLink := none, googleEventId := none,
    status := .confirmed, cancelledAt := none, cancellationReason := none,
    deletedAt := none }

/-- A booking that has already been cancelled. -/
def cancelledBooking : Booking :=
  { sampleBooking with
    id := 22,
    status := .cancelled,
    cancelledAt := some 50,
    cancellationReason := some "earlier" }

/-- A confirmed booking whose soft-delete marker is set. -/
def softDeletedBooking : Booking :=
  { sampleBooking with id := 23, deletedAt := some 90 }

def storeConfirmed : DBState := { emptyStore with bookings := [sampleBooking] }

def storeCancelled : DBState := { emptyStore with bookings := [cancelledBooking] }

def storeSoftDeleted : DBState := { emptyStore with bookings := [softDeletedBooking] }

/-- Two Monday slots: one starting exactly at minute 600, one partially
overlapping the 600–630 window but starting at 615. -/
def sampleSlots : List AvailabilitySlot :=
  [ { id := 31, eventTypeId := 1, dayOfWeek := 1, startTime := 600, endTime := 630,
      isActive := true },
    { id := 32, eventTypeId := 1, dayOfWeek := 1, startTime := 615, endTime := 700,
      isActive := true } ]

def slotStore : DBState := { emptyStore with slots := sampleSlots }

/-! ## Canonical forms of the three operations -/

theorem createBooking_eq_notFound (st : DBState) (etId : Nat) (g : Guest)
    (startT newId : Nat) (prov : Option MeetInfo) (today : Nat)
    (h : findEventType st.eventTypes etId = none) :
    createBooking st etId g startT newId prov today = (.notFound, st) := by
  unfold createBooking; rw [h]

theorem createBooking_eq_conflict (st : DBState) (etId : Nat) (g : Guest)
    (startT newId : Nat) (prov : Option MeetInfo) (today : Nat) (et : EventType)
    (h : findEventType st.eventTypes etId = some et)
    (hc : conflictExists st.bookings etId startT (startT + et.durationMinutes) = true) :
    createBooking st etId g startT newId prov today = (.conflict, st) := by
  unfold createBooking; rw [h]; simp [hc]

theorem createBooking_eq_created (st : DBState) (etId : Nat) (g : Guest)
    (startT newId : Nat) (prov : Option MeetInfo) (today : Nat) (et : EventType)
    (h : findEventType st.eventTypes etId = some et)
    (hc : conflictExists st.bookings etId startT (startT + et.durationMinutes) = false) :
    createBooking st etId g startT newId prov today =
      (.created (newBooking newId etId et g startT prov),
        commitBooking st (newBooking newId etId et g startT prov) et today) := by
  unfold createBooking; rw [h]; simp [hc]

theorem cancelBooking_eq_notFound (st : DBState) (bid uid : Nat) (reason : Option String)
    (now today : Nat) (h : findBookingForCancel st.bookings bid uid = none) :
    cancelBooking st bid uid reason now today = (.notFound, st) := by
  unfold cancelBooking; rw [h]

theorem cancelBooking_eq_ok (st : DBState) (bid uid : Nat) (reason : Option String)
    (now today : Nat) (booking : Booking)
    (h : findBookingForCancel st.bookings bid uid = some booking) :
    cancelBooking st bid uid reason now today =
      (.ok bid .cancelled now,
        { st with
          bookings := st.bookings.map (cancelUpdate bid uid reason now),
          slots := releaseSlot st.slots booking.eventTypeId
            (dayOfWeekOf booking.scheduledAt) (timeOfDayOf booking.scheduledAt),
          analytics :=
            match st.eventTypes.find? (fun et => et.id == booking.eventTypeId) with
            | some et => analyticsIncrement st.analytics et.userId booking.eventTypeId
                today .cancellationCount 1
            | none => st.analytics }) := by
  unfold cancelBooking; rw [h]

theorem rescheduleBooking_eq_notFound (st : DBState) (bid uid newStart : Nat)
    (h : findBookingForReschedule st.bookings bid uid = none) :
    rescheduleBooking st bid uid newStart = (.notFound, st) := by
  unfold rescheduleBooking; rw [h]

theorem rescheduleBooking_eq_conflict (st : DBState) (bid uid newStart : Nat)
    (old : Booking) (h : findBookingForReschedule st.bookings bid uid = some old)
    (hc : rescheduleConflictExists st.bookings old.eventTypeId bid newStart
      (newStart + old.durationMinutes) = true) :
    rescheduleBooking st bid uid newStart = (.conflict, st) := by
  unfold rescheduleBooking; rw [h]; simp [hc]

theorem rescheduleBooking_eq_ok (st : DBState) (bid uid newStart : Nat)
    (old : Booking) (h : findBookingForReschedule st.bookings bid uid = some old)
    (hc : rescheduleConflictExists st.bookings old.eventTypeId bid newStart
      (newStart + old.durationMinutes) = false) :
    rescheduleBooking st bid uid newStart =
      (.ok bid newStart .confirmed,
        { st with
          slots := consumeSlot
            (releaseSlot st.slots old.eventTypeId
              (dayOfWeekOf old.scheduledAt) (timeOfDayOf old.scheduledAt))
            old.eventTypeId (dayOfWeekOf newStart) (timeOfDayOf newStart)
            (timeOfDayOf (newStart + old.durationMinutes)),
          bookings := st.bookings.map
            (rescheduleUpdate bid newStart (newStart + old.durationMinutes)) }) := by
  unfold rescheduleBooking; rw [h]; simp [hc]

/-! ## Preservation of the invariant -/

theorem conflictExists_spec {bs : List Booking} {etId startT endT : Nat}
    (h : conflictExists bs etId startT endT = false) :
    ∀ b ∈ bs, b.eventTypeId = etId → b.status = .confirmed →
      ¬(b.scheduledAt < endT ∧ startT < b.endTime) := by
  intro b hb het hc hov
  have htrue : conflictExists bs etId startT endT = true := by
    simp only [conflictExists, List.any_eq_true]
    exact ⟨b, hb, by simp [het, hc, hov.1, hov.2]⟩
  rw [htrue] at h; cases h

theorem rescheduleConflictExists_spec {bs : List Booking} {etId selfId startT endT : Nat}
    (h : rescheduleConflictExists bs etId selfId startT endT = false) :
    ∀ b ∈ bs, b.eventTypeId = etId → b.id ≠ selfId → b.status = .confirmed →
      ¬(b.scheduledAt < endT ∧ startT < b.endTime) := by
  intro b hb het hne hc hov
  have htrue : rescheduleConflictExists bs etId selfId startT endT = true := by
    simp only [rescheduleConflictExists, List.any_eq_true]
    exact ⟨b, hb, by simp [het, hne, hc, hov.1, hov.2]⟩
  rw [htrue] at h; cases h

theorem pairwise_id_unique {bs : List Booking} (hinv : bs.Pairwise BookingRel)
    {a b : Booking} (ha : a ∈ bs) (hb : b ∈ bs) (hid : a.id = b.id) : a = b := by
  induction bs with
  | nil => cases ha
  | cons hd tl ih =>
    rw [List.pairwise_cons] at hinv
    rcases List.mem_cons.mp ha with rfl | ha' <;> rcases List.mem_cons.mp hb with h | hb'
    · exact h.symm
    · exact absurd hid (hinv.1 b hb').1
    · exact absurd hid.symm ((h ▸ hinv.1) a ha').1
    · exact ih hinv.2 ha' hb'

@[simp] theorem rescheduleUpdate_of_ne {bid : Nat} {b : Booking} (h : ¬b.id = bid)
    (s e : Nat) : rescheduleUpdate bid s e b = b := by
  unfold rescheduleUpdate; simp [h]

@[simp] theorem rescheduleUpdate_of_eq {bid : Nat} {b : Booking} (h : b.id = bid)
    (s e : Nat) :
    rescheduleUpdate bid s e b = { b with scheduledAt := s, endTime := e } := by
  unfold rescheduleUpdate; simp [h]

theorem cancelUpdate_rel (bid uid : Nat) (reason : Option String) (now : Nat)
    {a b : Booking} (h : BookingRel a b) :
    BookingRel (cancelUpdate bid uid reason now a) (cancelUpdate bid uid reason now b) := by
  obtain ⟨hid, hov⟩ := h
  unfold cancelUpdate
  constructor
  · split <;> split <;> simpa using hid
  · split <;> split <;> intro het hca hcb
    · exact absurd hca (by simp)
    · exact absurd hca (by simp)
    · exact absurd hcb (by simp)
    · exact hov het hca hcb

theorem createBooking_preserves_inv (st : DBState) (etId : Nat) (g : Guest)
    (startT newId : Nat) (prov : Option MeetInfo) (today : Nat)
    (hinv : BookingsInv st.bookings) (hfresh : ∀ b ∈ st.bookings, b.id ≠ newId) :
    BookingsInv (createBooking st etId g startT newId prov today).2.bookings := by
  cases hfind : findEventType st.eventTypes etId with
  | none => rw [createBooking_eq_notFound st etId g startT newId prov today hfind]; exact hinv
  | some et =>
    cases hc : conflictExists st.bookings etId startT (startT + et.durationMinutes) with
    | true =>
      rw [createBooking_eq_conflict st etId g startT newId prov today et hfind hc]
      exact hinv
    | false =>
      rw [createBooking_eq_created st etId g startT newId prov today et hfind hc]
      unfold BookingsInv commitBooking
      dsimp only
      rw [List.pairwise_append]
      refine ⟨hinv, List.pairwise_singleton _ _, ?_⟩
      intro a ha nb hnb
      rw [List.mem_singleton] at hnb
      subst hnb
      refine ⟨hfresh a ha, fun het hca _ => ?_⟩
      have := conflictExists_spec hc a ha (by simpa [newBooking] using het) hca
      simpa [newBooking] using this

theorem cancelBooking_preserves_inv (st : DBState) (bid uid : Nat)
    (reason : Option String) (now today : Nat) (hinv : BookingsInv st.bookings) :
    BookingsInv (cancelBooking st bid uid reason now today).2.bookings := by
  cases hfind : findBookingForCancel st.bookings bid uid with
  | none => rw [cancelBooking_eq_notFound st bid uid reason now today hfind]; exact hinv
  | some booking =>
    rw [cancelBooking_eq_ok st bid uid reason now today booking hfind]
    exact List.Pairwise.map _ (fun a b h => cancelUpdate_rel bid uid reason now h) hinv

theorem rescheduleBooking_preserves_inv (st : DBState) (bid uid newStart : Nat)
    (hinv : BookingsInv st.bookings) :
    BookingsInv (rescheduleBooking st bid uid newStart).2.bookings := by
  cases hfind : findBookingForReschedule st.bookings bid uid with
  | none => rw [rescheduleBooking_eq_notFound st bid uid newStart hfind]; exact hinv
  | some old =>
    cases hc : rescheduleConflictExists st.bookings old.eventTypeId bid newStart
        (newStart + old.durationMinutes) with
    | true => rw [rescheduleBooking_eq_conflict st bid uid newStart old hfind hc]; exact hinv
    | false =>
      rw [rescheduleBooking_eq_ok st bid uid newStart old hfind hc]
      have hold_mem : old ∈ st.bookings := List.mem_of_find?_eq_some hfind
      have hold_p := List.find?_some hfind
      simp only [Bool.and_eq_true, beq_iff_eq, decide_eq_true_eq] at hold_p
      obtain ⟨⟨hold_id, _⟩, hold_conf⟩ := hold_p
      have hspec := rescheduleConflictExists_spec hc
      unfold BookingsInv
      dsimp only
      rw [List.pairwise_map]
      refine hinv.imp_of_mem ?_
      intro a b ha hb hrel
      obtain ⟨hid, hov⟩ := hrel
      by_cases hA : a.id = bid <;> by_cases hB : b.id = bid
      · exact absurd (hA.trans hB.symm) hid
      · have haold : a = old := pairwise_id_unique hinv ha hold_mem (hA.trans hold_id.symm)
        subst haold
        refine ⟨by simpa [hA, hB] using hid, fun het hca hcb => ?_⟩
        simp only [rescheduleUpdate_of_eq hA, rescheduleUpdate_of_ne hB] at het hcb ⊢
        have hbne : b.id ≠ bid := hB
        have := hspec b hb (by simpa using het.symm) hbne hcb
        intro hcon
        exact this ⟨hcon.2, hcon.1⟩
      · have hbold : b = old := pairwise_id_unique hinv hb hold_mem (hB.trans hold_id.symm)
        subst hbold
        refine ⟨by simp [hA, hB], fun het hca hcb => ?_⟩
        simp only [rescheduleUpdate_of_eq hB, rescheduleUpdate_of_ne hA] at het hca ⊢
        have := hspec a ha het hA hca
        intro hcon
        exact this ⟨hcon.1, hcon.2⟩
      · rw [rescheduleUpdate_of_ne hA, rescheduleUpdate_of_ne hB]
        exact ⟨hid, hov⟩

/-- Every state reachable by the three booking operations satisfies the
pairwise invariant. -/
theorem reachable_inv {st : DBState} (h : Reachable st) : BookingsInv st.bookings := by
  induction h with
  | init ets slots rows => exact List.Pairwise.nil
  | create st etId g startT newId prov today _ hfresh ih =>
    exact createBooking_preserves_inv st etId g startT newId prov today ih hfresh
  | cancel st bid uid reason now today _ ih =>
    exact cancelBooking_preserves_inv st bid uid reason now today ih
  | reschedule st bid uid newStart _ ih =>
    exact rescheduleBooking_preserves_inv st bid uid newStart ih

/-! ## Claim C1 -/

/-- C1: in every state reachable through any sequence of `createBooking`,
`rescheduleBooking` and `cancelBooking`, any two distinct booking rows that
are both confirmed and on the same event type have non-overlapping half-open
intervals: NOT(B1.start < B2.end AND B2.start < B1.end). -/
theorem confirmed_bookings_never_overlap (st : DBState) (h : Reachable st)
    (i j : Fin st.bookings.length) (hij : i ≠ j)
    (het : (st.bookings.get i).eventTypeId = (st.bookings.get j).eventTypeId)
    (hci : (st.bookings.get i).status = .confirmed)
    (hcj : (st.bookings.get j).status = .confirmed) :
    ¬((st.bookings.get i).scheduledAt < (st.bookings.get j).endTime ∧
      (st.bookings.get j).scheduledAt < (st.bookings.get i).endTime) := by
  have hinv := reachable_inv h
  rw [BookingsInv, List.pairwise_iff_get] at hinv
  rcases Nat.lt_or_ge i.val j.val with hlt | hge
  · exact (hinv i j hlt).2 het hci hcj
  · have hlt : j.val < i.val :=
      Nat.lt_of_le_of_ne hge (fun hh => hij (Fin.ext hh.symm))
    intro hcon
    exact (hinv j i hlt).2 het.symm hcj hci ⟨hcon.2, hcon.1⟩

/-- Witness for C1: the state reached by two sequential bookings 600–630 and
630–660 on the sample event type, checked at its two rows. -/
theorem confirmed_bookings_never_overlap_witness :
    ¬((storeTwo.bookings.get ⟨0, by decide⟩).scheduledAt <
        (storeTwo.bookings.get ⟨1, by decide⟩).endTime ∧
      (storeTwo.bookings.get ⟨1, by decide⟩).scheduledAt <
        (storeTwo.bookings.get ⟨0, by decide⟩).endTime) :=
  confirmed_bookings_never_overlap storeTwo
    (Reachable.create storeOne 1 sampleGuest2 630 12 none 0
      (Reachable.create emptyStore 1 sampleGuest 600 11 none 0
        (Reachable.init _ _ _) (by decide))
      (by decide))
    ⟨0, by decide⟩ ⟨1, by decide⟩ (by decide) (by decide) (by decide) (by decide)

/-! ## Claim C2 -/

/-- C2: for a createBooking request whose event type exists, is active and is
not soft-deleted, the call returns Conflict with the store untouched iff some
confirmed booking of the same event type overlaps the half-open interval
`[startT, startT + duration)`; otherwise a booking with status confirmed and
`end = startT + duration` is appended. -/
theorem createBooking_conflict_iff (st : DBState) (etId : Nat) (g : Guest)
    (startT newId : Nat) (prov : Option MeetInfo) (today : Nat) (et : EventType)
    (hfind : findEventType st.eventTypes etId = some et) :
    ((createBooking st etId g startT newId prov today).1 = .conflict ∧
        (createBooking st etId g startT newId prov today).2 = st ↔
      ∃ b ∈ st.bookings, b.eventTypeId = etId ∧ b.status = .confirmed ∧
        b.scheduledAt < startT + et.durationMinutes ∧ startT < b.endTime) ∧
    ((¬∃ b ∈ st.bookings, b.eventTypeId = etId ∧ b.status = .confirmed ∧
        b.scheduledAt < startT + et.durationMinutes ∧ startT < b.endTime) →
      ∃ nb, (createBooking st etId g startT newId prov today).1 = .created nb ∧
        nb.status = .confirmed ∧ nb.endTime = startT + et.durationMinutes ∧
        (createBooking st etId g startT newId prov today).2.bookings =
          st.bookings ++ [nb]) := by
  have hbool : conflictExists st.bookings etId startT (startT + et.durationMinutes) = true ↔
      ∃ b ∈ st.bookings, b.eventTypeId = etId ∧ b.status = .confirmed ∧
        b.scheduledAt < startT + et.durationMinutes ∧ startT < b.endTime := by
    simp [conflictExists, List.any_eq_true, and_assoc]
  constructor
  · constructor
    · intro hcc
      cases hc : conflictExists st.bookings etId startT (startT + et.durationMinutes) with
      | true => exact hbool.mp hc
      | false =>
        rw [createBooking_eq_created st etId g startT newId prov today et hfind hc] at hcc
        simp at hcc
    · intro hex
      rw [createBooking_eq_conflict st etId g startT newId prov today et hfind
        (hbool.mpr hex)]
      exact ⟨rfl, rfl⟩
  · intro hnex
    have hc : conflictExists st.bookings etId startT (startT + et.durationMinutes) = false := by
      cases hc : conflictExists st.bookings etId startT (startT + et.durationMinutes) with
      | true => exact absurd (hbool.mp hc) hnex
      | false => rfl
    rw [createBooking_eq_created st etId g startT newId prov today et hfind hc]
    exact ⟨newBooking newId etId et g startT prov, rfl, rfl, rfl, rfl⟩

/-- Witness for C2 at the empty sample store. -/
theorem createBooking_conflict_iff_witness :
    ((createBooking emptyStore 1 sampleGuest 600 11 none 0).1 = .conflict ∧
        (createBooking emptyStore 1 sampleGuest 600 11 none 0).2 = emptyStore ↔
      ∃ b ∈ emptyStore.bookings, b.eventTypeId = 1 ∧ b.status = .confirmed ∧
        b.scheduledAt < 600 + sampleEventType.durationMinutes ∧ 600 < b.endTime) ∧
    ((¬∃ b ∈ emptyStore.bookings, b.eventTypeId = 1 ∧ b.status = .confirmed ∧
        b.scheduledAt < 600 + sampleEventType.durationMinutes ∧ 600 < b.endTime) →
      ∃ nb, (createBooking emptyStore 1 sampleGuest 600 11 none 0).1 = .created nb ∧
        nb.status = .confirmed ∧ nb.endTime = 600 + sampleEventType.durationMinutes ∧
        (createBooking emptyStore 1 sampleGuest 600 11 none 0).2.bookings =
          emptyStore.bookings ++ [nb]) :=
  createBooking_conflict_iff emptyStore 1 sampleGuest 600 11 none 0 sampleEventType rfl

/-! ## Claim C7 -/

/-- C7: if the Google Meet provisioning attempt fails during createBooking
(`provisioned = none`) and no conflict exists, the booking is still persisted
with status confirmed and null meeting link / external meeting id, and the
result is the created booking, not an error. -/
theorem createBooking_meet_failure (st : DBState) (etId : Nat) (g : Guest)
    (startT newId today : Nat) (et : EventType)
    (hfind : findEventType st.eventTypes etId = some et)
    (hc : conflictExists st.bookings etId startT (startT + et.durationMinutes) = false) :
    ∃ nb, (createBooking st etId g startT newId none today).1 = .created nb ∧
      nb.status = .confirmed ∧ nb.googleMeetLink = none ∧ nb.googleEventId = none ∧
      (createBooking st etId g startT newId none today).2.bookings =
        st.bookings ++ [nb] := by
  rw [createBooking_eq_created st etId g startT newId none today et hfind hc]
  exact ⟨newBooking newId etId et g startT none, rfl, rfl, rfl, rfl, rfl⟩

/-- Witness for C7 at the empty sample store. -/
theorem createBooking_meet_failure_witness :
    ∃ nb, (createBooking emptyStore 1 sampleGuest 600 11 none 0).1 = .created nb ∧
      nb.status = .confirmed ∧ nb.googleMeetLink = none ∧ nb.googleEventId = none ∧
      (createBooking emptyStore 1 sampleGuest 600 11 none 0).2.bookings =
        emptyStore.bookings ++ [nb] :=
  createBooking_meet_failure emptyStore 1 sampleGuest 600 11 0 sampleEventType rfl
    (by decide)

/-! ## Claim C9 -/

/-- Every booking `GET /api/bookings` returns has `deleted_at IS NULL`. -/
theorem mem_listBookings_deleted_none {st : DBState} {uid : Nat} {f : ListFilters}
    {limit offsetN : Nat} {b : Booking} (h : b ∈ listBookings st uid f limit offsetN) :
    b.deletedAt = none := by
  have h1 : b ∈ st.bookings.filter (matchesFilters uid f) :=
    (List.mem_mergeSort).mp (List.drop_subset _ _ (List.take_subset _ _ h))
  have h2 := (List.mem_filter.mp h1).2
  simp only [matchesFilters, Bool.and_eq_true, Option.isNone_iff_eq_none] at h2
  exact h2.1.1.1.1.2

/-- Every booking `GET /api/bookings/:bookingId` returns has
`deleted_at IS NULL`. -/
theorem getBooking_deleted_none {st : DBState} {bid uid : Nat} {b : Booking}
    (h : getBooking st bid uid = some b) : b.deletedAt = none := by
  have h1 := List.find?_some h
  simp only [Bool.and_eq_true, Option.isNone_iff_eq_none] at h1
  exact h1.2

/-- C9: the createBooking conflict query has no `deleted_at` filter, so a
soft-deleted confirmed booking on the same event type still forces a
Conflict with no writes, even though `listBookings` and `getBooking` never
return that booking. -/
theorem softDeleted_booking_still_blocks (st : DBState) (etId : Nat) (g : Guest)
    (startT newId : Nat) (prov : Option MeetInfo) (today d : Nat) (et : EventType)
    (b : Booking) (hb : b ∈ st.bookings) (hconf : b.status = .confirmed)
    (hdel : b.deletedAt = some d)
    (hfind : findEventType st.eventTypes etId = some et)
    (hET : b.eventTypeId = etId)
    (hov : b.scheduledAt < startT + et.durationMinutes ∧ startT < b.endTime) :
    (createBooking st etId g startT newId prov today).1 = .conflict ∧
    (createBooking st etId g startT newId prov today).2 = st ∧
    (∀ uid f limit offsetN, b ∉ listBookings st uid f limit offsetN) ∧
    (∀ uid bid, getBooking st bid uid ≠ some b) := by
  have hc : conflictExists st.bookings etId startT (startT + et.durationMinutes) = true := by
    simp only [conflictExists, List.any_eq_true]
    exact ⟨b, hb, by simp [hET, hconf, hov.1, hov.2]⟩
  rw [createBooking_eq_conflict st etId g startT newId prov today et hfind hc]
  refine ⟨rfl, rfl, ?_, ?_⟩
  · intro uid f limit offsetN hmem
    rw [mem_listBookings_deleted_none hmem] at hdel
    cases hdel
  · intro uid bid hsome
    rw [getBooking_deleted_none hsome] at hdel
    cases hdel

/-- Witness for C9: the store whose only booking is confirmed but
soft-deleted, and an overlapping request at minute 615. -/
theorem softDeleted_booking_still_blocks_witness :
    (createBooking storeSoftDeleted 1 sampleGuest 615 11 none 0).1 = .conflict ∧
    (createBooking storeSoftDeleted 1 sampleGuest 615 11 none 0).2 = storeSoftDeleted ∧
    (∀ uid f limit offsetN,
      softDeletedBooking ∉ listBookings storeSoftDeleted uid f limit offsetN) ∧
    (∀ uid bid, getBooking storeSoftDeleted bid uid ≠ some softDeletedBooking) :=
  softDeleted_booking_still_blocks storeSoftDeleted 1 sampleGuest 615 11 none 0 90
    sampleEventType softDeletedBooking (by decide) (by decide) (by decide) rfl
    (by decide) (by decide)

/-! ## Claim C5 -/

/-- C5: `consumeSlot` followed by `releaseSlot` for the same booking acts on
every row through the composite per-row function, and that composite leaves a
matching row whose start equals the booking start active, while a row of the
same event type and day that intersects the booked window but has a different
start stays inactive after the release. -/
theorem consumeSlot_releaseSlot_asymmetry (slots : List AvailabilitySlot)
    (etId day startT endT : Nat) :
    releaseSlot (consumeSlot slots etId day startT endT) etId day startT =
      slots.map (fun s =>
        releaseSlotRow etId day startT (consumeSlotRow etId day startT endT s)) ∧
    ∀ s : AvailabilitySlot, s.eventTypeId = etId → s.dayOfWeek = day →
      ((s.startTime = startT →
        (releaseSlotRow etId day startT
          (consumeSlotRow etId day startT endT s)).isActive = true) ∧
       (s.startTime < endT → startT < s.endTime → s.startTime ≠ startT →
        (releaseSlotRow etId day startT
          (consumeSlotRow etId day startT endT s)).isActive = false)) := by
  refine ⟨?_, ?_⟩
  · rw [releaseSlot, consumeSlot, List.map_map]
    rfl
  · intro s hET hday
    constructor
    · intro hst
      unfold consumeSlotRow
      split <;> simp [releaseSlotRow, hET, hday, hst]
    · intro h1 h2 hne
      have hcon : consumeSlotRow etId day startT endT s = { s with isActive := false } := by
        unfold consumeSlotRow
        simp [hET, hday, h1, h2]
      rw [hcon]
      unfold releaseSlotRow
      simp [hne]

/-- Witness for C5: the two sample Monday slots against the 600–630 window —
slot 31 (start 600) is active again after release, slot 32 (start 615,
intersecting) stays inactive. -/
theorem consumeSlot_releaseSlot_asymmetry_witness :
    releaseSlot (consumeSlot sampleSlots 1 1 600 630) 1 1 600 =
      sampleSlots.map (fun s =>
        releaseSlotRow 1 1 600 (consumeSlotRow 1 1 600 630 s)) ∧
    ∀ s : AvailabilitySlot, s.eventTypeId = 1 → s.dayOfWeek = 1 →
      ((s.startTime = 600 →
        (releaseSlotRow 1 1 600 (consumeSlotRow 1 1 600 630 s)).isActive = true) ∧
       (s.startTime < 630 → 600 < s.endTime → s.startTime ≠ 600 →
        (releaseSlotRow 1 1 600 (consumeSlotRow 1 1 600 630 s)).isActive = false)) :=
  consumeSlot_releaseSlot_asymmetry sampleSlots 1 1 600 630

/-! ## Claim C6 -/

/-- C6: rescheduling a confirmed booking returns Conflict with the store
untouched iff the new half-open interval overlaps a *different* confirmed
booking of the same event type; on success the booking rows are updated only
through `rescheduleUpdate`, which changes scheduled start and end
(`newEnd = newStart + duration`) of the moved booking and nothing else —
id, guest fields and meeting link of every row are unchanged. -/
theorem rescheduleBooking_spec (st : DBState) (bid uid newStart : Nat) (old : Booking)
    (hfind : findBookingForReschedule st.bookings bid uid = some old) :
    ((rescheduleBooking st bid uid newStart).1 = .conflict ∧
        (rescheduleBooking st bid uid newStart).2 = st ↔
      ∃ b ∈ st.bookings, b.id ≠ bid ∧ b.eventTypeId = old.eventTypeId ∧
        b.status = .confirmed ∧ b.scheduledAt < newStart + old.durationMinutes ∧
        newStart < b.endTime) ∧
    ((¬∃ b ∈ st.bookings, b.id ≠ bid ∧ b.eventTypeId = old.eventTypeId ∧
        b.status = .confirmed ∧ b.scheduledAt < newStart + old.durationMinutes ∧
        newStart < b.endTime) →
      (rescheduleBooking st bid uid newStart).1 = .ok bid newStart .confirmed ∧
      (rescheduleBooking st bid uid newStart).2.bookings =
        st.bookings.map (rescheduleUpdate bid newStart (newStart + old.durationMinutes)) ∧
      ∀ b : Booking,
        (rescheduleUpdate bid newStart (newStart + old.durationMinutes) b).id = b.id ∧
        (rescheduleUpdate bid newStart (newStart + old.durationMinutes) b).guestName =
          b.guestName ∧
        (rescheduleUpdate bid newStart (newStart + old.durationMinutes) b).guestEmail =
          b.guestEmail ∧
        (rescheduleUpdate bid newStart (newStart + old.durationMinutes) b).guestPhone =
          b.guestPhone ∧
        (rescheduleUpdate bid newStart (newStart + old.durationMinutes) b).guestTimezone =
          b.guestTimezone ∧
        (rescheduleUpdate bid newStart (newStart + old.durationMinutes) b).googleMeetLink =
          b.googleMeetLink ∧
        (b.id = bid →
          (rescheduleUpdate bid newStart (newStart + old.durationMinutes) b).scheduledAt =
              newStart ∧
            (rescheduleUpdate bid newStart (newStart + old.durationMinutes) b).endTime =
              newStart + old.durationMinutes) ∧
        (b.id ≠ bid → rescheduleUpdate bid newStart (newStart + old.durationMinutes) b = b)) := by
  have hbool : rescheduleConflictExists st.bookings old.eventTypeId bid newStart
      (newStart + old.durationMinutes) = true ↔
      ∃ b ∈ st.bookings, b.id ≠ bid ∧ b.eventTypeId = old.eventTypeId ∧
        b.status = .confirmed ∧ b.scheduledAt < newStart + old.durationMinutes ∧
        newStart < b.endTime := by
    simp only [rescheduleConflictExists, List.any_eq_true, Bool.and_eq_true,
      Bool.not_eq_eq_eq_not, Bool.not_true, beq_eq_false_iff_ne, beq_iff_eq,
      decide_eq_true_eq, gt_iff_lt, ne_eq, and_assoc]
    constructor
    · rintro ⟨b, hb, h1, h2, h3, h4, h5⟩
      exact ⟨b, hb, h2, h1, h3, h4, h5⟩
    · rintro ⟨b, hb, h2, h1, h3, h4, h5⟩
      exact ⟨b, hb, h1, h2, h3, h4, h5⟩
  constructor
  · constructor
    · intro hcc
      cases hc : rescheduleConflictExists st.bookings old.eventTypeId bid newStart
          (newStart + old.durationMinutes) with
      | true => exact hbool.mp hc
      | false =>
        rw [rescheduleBooking_eq_ok st bid uid newStart old hfind hc] at hcc
        simp at hcc
    · intro hex
      rw [rescheduleBooking_eq_conflict st bid uid newStart old hfind (hbool.mpr hex)]
      exact ⟨rfl, rfl⟩
  · intro hnex
    have hc : rescheduleConflictExists st.bookings old.eventTypeId bid newStart
        (newStart + old.durationMinutes) = false := by
      cases hc : rescheduleConflictExists st.bookings old.eventTypeId bid newStart
          (newStart + old.durationMinutes) with
      | true => exact absurd (hbool.mp hc) hnex
      | false => rfl
    rw [rescheduleBooking_eq_ok st bid uid newStart old hfind hc]
    refine ⟨rfl, rfl, ?_⟩
    intro b
    by_cases hid : b.id = bid
    · simp [rescheduleUpdate_of_eq hid, hid]
    · simp [rescheduleUpdate_of_ne hid, hid]

/-- Witness for C6: moving the sample confirmed booking to minute 700 in a
store where it is the only booking. -/
theorem rescheduleBooking_spec_witness :
    ((rescheduleBooking storeConfirmed 21 7 700).1 = .conflict ∧
        (rescheduleBooking storeConfirmed 21 7 700).2 = storeConfirmed ↔
      ∃ b ∈ storeConfirmed.bookings, b.id ≠ 21 ∧
        b.eventTypeId = sampleBooking.eventTypeId ∧ b.status = .confirmed ∧
        b.scheduledAt < 700 + sampleBooking.durationMinutes ∧ 700 < b.endTime) ∧
    ((¬∃ b ∈ storeConfirmed.bookings, b.id ≠ 21 ∧
        b.eventTypeId = sampleBooking.eventTypeId ∧ b.status = .confirmed ∧
        b.scheduledAt < 700 + sampleBooking.durationMinutes ∧ 700 < b.endTime) →
      (rescheduleBooking storeConfirmed 21 7 700).1 = .ok 21 700 .confirmed ∧
      (rescheduleBooking storeConfirmed 21 7 700).2.bookings =
        storeConfirmed.bookings.map
          (rescheduleUpdate 21 700 (700 + sampleBooking.durationMinutes)) ∧
      ∀ b : Booking,
        (rescheduleUpdate 21 700 (700 + sampleBooking.durationMinutes) b).id = b.id ∧
        (rescheduleUpdate 21 700 (700 + sampleBooking.durationMinutes) b).guestName =
          b.guestName ∧
        (rescheduleUpdate 21 700 (700 + sampleBooking.durationMinutes) b).guestEmail =
          b.guestEmail ∧
        (rescheduleUpdate 21 700 (700 + sampleBooking.durationMinutes) b).guestPhone =
          b.guestPhone ∧
        (rescheduleUpdate 21 700 (700 + sampleBooking.durationMinutes) b).guestTimezone =
          b.guestTimezone ∧
        (rescheduleUpdate 21 700 (700 + sampleBooking.durationMinutes) b).googleMeetLink =
          b.googleMeetLink ∧
        (b.id = 21 →
          (rescheduleUpdate 21 700 (700 + sampleBooking.durationMinutes) b).scheduledAt =
              700 ∧
            (rescheduleUpdate 21 700 (700 + sampleBooking.durationMinutes) b).endTime =
              700 + sampleBooking.durationMinutes) ∧
        (b.id ≠ 21 → rescheduleUpdate 21 700 (700 + sampleBooking.durationMinutes) b = b)) :=
  rescheduleBooking_spec storeConfirmed 21 7 700 sampleBooking (by decide)

/-! ## Analytics upsert lemmas (claims C8 and C4) -/

theorem keyMatch_bumpRow (field : AnalyticsField) (delta : Nat) (r : AnalyticsRow)
    (uid etId date : Nat) :
    (bumpRow field delta r).keyMatch uid etId date = r.keyMatch uid etId date := by
  cases field <;> rfl

theorem keyMatch_initRow (uid etId date : Nat) (field : AnalyticsField) (delta : Nat) :
    (initRow uid etId date field delta).keyMatch uid etId date = true := by
  simp [AnalyticsRow.keyMatch, initRow]

theorem analyticsIncrement_of_no_match {rows : List AnalyticsRow}
    {uid etId date : Nat} {field : AnalyticsField} {delta : Nat}
    (h : ∀ r ∈ rows, r.keyMatch uid etId date = false) :
    analyticsIncrement rows uid etId date field delta =
      rows ++ [initRow uid etId date field delta] := by
  induction rows with
  | nil => rfl
  | cons r rs ih =>
    have hr := h r (List.mem_cons_self r rs)
    rw [analyticsIncrement, hr]
    simp only [Bool.false_eq_true, if_false, List.cons_append, List.cons.injEq, true_and]
    exact ih fun x hx => h x (List.mem_cons_of_mem _ hx)

theorem analyticsIncrement_of_match {l1 : List AnalyticsRow} {r : AnalyticsRow}
    {l2 : List AnalyticsRow} {uid etId date : Nat} {field : AnalyticsField} {delta : Nat}
    (hl1 : ∀ x ∈ l1, x.keyMatch uid etId date = false)
    (hr : r.keyMatch uid etId date = true) :
    analyticsIncrement (l1 ++ r :: l2) uid etId date field delta =
      l1 ++ bumpRow field delta r :: l2 := by
  induction l1 with
  | nil => simp [analyticsIncrement, hr]
  | cons x xs ih =>
    have hx := hl1 x (List.mem_cons_self x xs)
    rw [List.cons_append, analyticsIncrement, hx]
    simp only [Bool.false_eq_true, if_false, List.cons_append, List.cons.injEq, true_and]
    exact ih fun y hy => hl1 y (List.mem_cons_of_mem _ hy)

theorem bumpRow_cancellationCount (delta : Nat) (r : AnalyticsRow) :
    (bumpRow .cancellationCount delta r).cancellationCount =
      r.cancellationCount + delta := rfl

theorem bumpRow_bookingCount_cancellation (delta : Nat) (r : AnalyticsRow) :
    (bumpRow .cancellationCount delta r).bookingCount = r.bookingCount := rfl

theorem cancellationCountFor_cons (r : AnalyticsRow) (rs : List AnalyticsRow)
    (uid etId date : Nat) :
    cancellationCountFor (r :: rs) uid etId date =
      (if r.keyMatch uid etId date then r.cancellationCount else 0) +
        cancellationCountFor rs uid etId date := by
  rw [cancellationCountFor, List.filter_cons]
  cases hk : r.keyMatch uid etId date <;> simp [hk, cancellationCountFor]

theorem bookingCountFor_cons (r : AnalyticsRow) (rs : List AnalyticsRow)
    (uid etId date : Nat) :
    bookingCountFor (r :: rs) uid etId date =
      (if r.keyMatch uid etId date then r.bookingCount else 0) +
        bookingCountFor rs uid etId date := by
  rw [bookingCountFor, List.filter_cons]
  cases hk : r.keyMatch uid etId date <;> simp [hk, bookingCountFor]

theorem cancellationCountFor_increment (rows : List AnalyticsRow)
    (uid etId date delta : Nat) :
    cancellationCountFor (analyticsIncrement rows uid etId date .cancellationCount delta)
        uid etId date =
      cancellationCountFor rows uid etId date + delta := by
  induction rows with
  | nil =>
    simp [analyticsIncrement, cancellationCountFor, keyMatch_initRow, initRow,
      AnalyticsRow.keyMatch]
  | cons r rs ih =>
    cases hk : r.keyMatch uid etId date with
    | true =>
      simp only [analyticsIncrement, hk, if_true]
      rw [cancellationCountFor_cons, cancellationCountFor_cons, keyMatch_bumpRow, hk,
        bumpRow_cancellationCount]
      simp only [if_true]
      omega
    | false =>
      simp only [analyticsIncrement, hk, Bool.false_eq_true, if_false]
      rw [cancellationCountFor_cons, cancellationCountFor_cons, hk, ih]
      simp only [Bool.false_eq_true, if_false]
      omega

theorem bookingCountFor_cancellation_increment (rows : List AnalyticsRow)
    (uid etId date delta : Nat) :
    bookingCountFor (analyticsIncrement rows uid etId date .cancellationCount delta)
        uid etId date =
      bookingCountFor rows uid etId date := by
  induction rows with
  | nil =>
    simp [analyticsIncrement, bookingCountFor, keyMatch_initRow, initRow,
      AnalyticsRow.keyMatch]
  | cons r rs ih =>
    cases hk : r.keyMatch uid etId date with
    | true =>
      simp only [analyticsIncrement, hk, if_true]
      rw [bookingCountFor_cons, bookingCountFor_cons, keyMatch_bumpRow, hk,
        bumpRow_bookingCount_cancellation]
    | false =>
      simp only [analyticsIncrement, hk, Bool.false_eq_true, if_false]
      rw [bookingCountFor_cons, bookingCountFor_cons, hk, ih]

/-! ## Claim C4 -/

/-- C4 counterexample: cancelling the already-cancelled sample booking does
not fail and does not leave the state unchanged — it reports success,
overwrites the cancellation timestamp and reason, and increments the
cancellation counter. -/
theorem cancel_already_cancelled_counterexample :
    (cancelBooking storeCancelled 22 7 (some "newer") 100 5).1 =
      .ok 22 .cancelled 100 ∧
    (cancelBooking storeCancelled 22 7 (some "newer") 100 5).2.bookings =
      [{ cancelledBooking with
         cancelledAt := some 100, cancellationReason := some "newer" }] ∧
    (cancelBooking storeCancelled 22 7 (some "newer") 100 5).2.analytics =
      [initRow 7 1 5 .cancellationCount 1] := by
  refine ⟨rfl, rfl, rfl⟩

/-- C4 (amended): cancelling an already-cancelled (owned, non-soft-deleted)
booking *succeeds again*: the route reports success, the row keeps status
cancelled but its cancelled-at timestamp and cancellation reason are
overwritten, and the cancellation counter is incremented once more — the
operation is neither rejected nor a no-op. -/
theorem cancel_already_cancelled_succeeds (st : DBState) (bid uid : Nat)
    (reason : Option String) (now today : Nat) (b : Booking)
    (hfind : findBookingForCancel st.bookings bid uid = some b)
    (_hstat : b.status = .cancelled) :
    (cancelBooking st bid uid reason now today).1 = .ok bid .cancelled now ∧
    (cancelBooking st bid uid reason now today).2.bookings =
      st.bookings.map (cancelUpdate bid uid reason now) ∧
    (∀ x ∈ st.bookings, x.id = bid → x.userId = uid →
      (cancelUpdate bid uid reason now x).status = .cancelled ∧
      (cancelUpdate bid uid reason now x).cancelledAt = some now ∧
      (cancelUpdate bid uid reason now x).cancellationReason = reason) ∧
    (∀ et, st.eventTypes.find? (fun e => e.id == b.eventTypeId) = some et →
      cancellationCountFor (cancelBooking st bid uid reason now today).2.analytics
          et.userId b.eventTypeId today =
        cancellationCountFor st.analytics et.userId b.eventTypeId today + 1) := by
  rw [cancelBooking_eq_ok st bid uid reason now today b hfind]
  refine ⟨rfl, rfl, ?_, ?_⟩
  · intro x hx h1 h2
    simp [cancelUpdate, h1, h2]
  · intro et het
    dsimp only
    rw [het]
    exact cancellationCountFor_increment st.analytics et.userId b.eventTypeId today 1

/-- Witness for the amended C4 at the concrete cancelled store. -/
theorem cancel_already_cancelled_succeeds_witness :
    (cancelBooking storeCancelled 22 7 (some "newer") 100 5).1 =
      .ok 22 .cancelled 100 ∧
    (cancelBooking storeCancelled 22 7 (some "newer") 100 5).2.bookings =
      storeCancelled.bookings.map (cancelUpdate 22 7 (some "newer") 100) ∧
    (∀ x ∈ storeCancelled.bookings, x.id = 22 → x.userId = 7 →
      (cancelUpdate 22 7 (some "newer") 100 x).status = .cancelled ∧
      (cancelUpdate 22 7 (some "newer") 100 x).cancelledAt = some 100 ∧
      (cancelUpdate 22 7 (some "newer") 100 x).cancellationReason = some "newer") ∧
    (∀ et, storeCancelled.eventTypes.find?
        (fun e => e.id == cancelledBooking.eventTypeId) = some et →
      cancellationCountFor (cancelBooking storeCancelled 22 7 (some "newer") 100 5).2.analytics
          et.userId cancelledBooking.eventTypeId 5 =
        cancellationCountFor storeCancelled.analytics et.userId
          cancelledBooking.eventTypeId 5 + 1) :=
  cancel_already_cancelled_succeeds storeCancelled 22 7 (some "newer") 100 5
    cancelledBooking (by decide) rfl

/-! ## Claim C8 -/

/-- C8: the analytics increment is an upsert keyed by (owner id, event type
id, date) — with no row for the key it appends a row whose given field holds
the delta, otherwise it adds the delta to that field of the (by the schema's
UNIQUE key, first and only) matching row; and a successful cancelBooking
increments cancellation-count for (owner, event type, today) by exactly 1
while booking-count is unchanged. -/
theorem analytics_increment_upsert (rows : List AnalyticsRow) (uid etId date : Nat)
    (field : AnalyticsField) (delta : Nat) (st : DBState) (bid uidc : Nat)
    (reason : Option String) (now today : Nat) (b : Booking) (et : EventType)
    (hfind : findBookingForCancel st.bookings bid uidc = some b)
    (het : st.eventTypes.find? (fun e => e.id == b.eventTypeId) = some et) :
    ((∀ r ∈ rows, r.keyMatch uid etId date = false) →
      analyticsIncrement rows uid etId date field delta =
        rows ++ [initRow uid etId date field delta]) ∧
    (∀ l1 r l2, rows = l1 ++ r :: l2 →
      (∀ x ∈ l1, x.keyMatch uid etId date = false) →
      r.keyMatch uid etId date = true →
      analyticsIncrement rows uid etId date field delta =
        l1 ++ bumpRow field delta r :: l2) ∧
    cancellationCountFor (cancelBooking st bid uidc reason now today).2.analytics
        et.userId b.eventTypeId today =
      cancellationCountFor st.analytics et.userId b.eventTypeId today + 1 ∧
    bookingCountFor (cancelBooking st bid uidc reason now today).2.analytics
        et.userId b.eventTypeId today =
      bookingCountFor st.analytics et.userId b.eventTypeId today := by
  refine ⟨fun h => analyticsIncrement_of_no_match h, ?_, ?_, ?_⟩
  · intro l1 r l2 hrw h1 hr
    subst hrw
    exact analyticsIncrement_of_match h1 hr
  · rw [cancelBooking_eq_ok st bid uidc reason now today b hfind]
    dsimp only
    rw [het]
    exact cancellationCountFor_increment st.analytics et.userId b.eventTypeId today 1
  · rw [cancelBooking_eq_ok st bid uidc reason now today b hfind]
    dsimp only
    rw [het]
    exact bookingCountFor_cancellation_increment st.analytics et.userId b.eventTypeId today 1

/-- Witness for C8: empty counter table and the cancellation of the sample
confirmed booking. -/
theorem analytics_increment_upsert_witness :
    ((∀ r ∈ ([] : List AnalyticsRow), r.keyMatch 7 1 5 = false) →
      analyticsIncrement [] 7 1 5 .cancellationCount 1 =
        [] ++ [initRow 7 1 5 .cancellationCount 1]) ∧
    (∀ l1 r l2, ([] : List AnalyticsRow) = l1 ++ r :: l2 →
      (∀ x ∈ l1, x.keyMatch 7 1 5 = false) →
      r.keyMatch 7 1 5 = true →
      analyticsIncrement [] 7 1 5 .cancellationCount 1 =
        l1 ++ bumpRow .cancellationCount 1 r :: l2) ∧
    cancellationCountFor (cancelBooking storeConfirmed 21 7 none 100 5).2.analytics
        sampleEventType.userId sampleBooking.eventTypeId 5 =
      cancellationCountFor storeConfirmed.analytics sampleEventType.userId
        sampleBooking.eventTypeId 5 + 1 ∧
    bookingCountFor (cancelBooking storeConfirmed 21 7 none 100 5).2.analytics
        sampleEventType.userId sampleBooking.eventTypeId 5 =
      bookingCountFor storeConfirmed.analytics sampleEventType.userId
        sampleBooking.eventTypeId 5 :=
  analytics_increment_upsert [] 7 1 5 .cancellationCount 1 storeConfirmed 21 7 none 100 5
    sampleBooking sampleEventType (by decide) rfl

/-! ## Claim C3 -/

/-- C3 (divergence exhibit): in the interleaving where both conflict checks
run against the initial store before either INSERT — possible because no
transaction wraps the check and the insert — *both* identical concurrent
requests succeed and both bookings are committed confirmed with the same
interval on the same event type, violating the pairwise invariant; the claim
promises exactly one success and one Conflict. -/
theorem race_both_requests_commit :
    (raceCreateCreate emptyStore 1 sampleGuest sampleGuest2 600 11 12 0).1 =
      .created (newBooking 11 1 sampleEventType sampleGuest 600 none) ∧
    (raceCreateCreate emptyStore 1 sampleGuest sampleGuest2 600 11 12 0).2.1 =
      .created (newBooking 12 1 sampleEventType sampleGuest2 600 none) ∧
    ((raceCreateCreate emptyStore 1 sampleGuest sampleGuest2 600 11 12 0).2.2.bookings.map
        (fun b => (b.status, b.eventTypeId, b.scheduledAt, b.endTime))) =
      [(.confirmed, 1, 600, 630), (.confirmed, 1, 600, 630)] ∧
    ¬ BookingsInv
      (raceCreateCreate emptyStore 1 sampleGuest sampleGuest2 600 11 12 0).2.2.bookings := by
  refine ⟨rfl, rfl, rfl, ?_⟩
  intro hinv
  rw [BookingsInv, List.pairwise_iff_get] at hinv
  have := (hinv ⟨0, by decide⟩ ⟨1, by decide⟩ (by decide)).2 (by decide) (by decide)
    (by decide)
  exact this (by decide)

/-! ## Claim C10 -/

/-- C10: the availability-slot delete handler never consults the caller —
its outcome and its effect on the store are identical for any two
authenticated callers, and whenever a row with the slot id exists the call
reports success and that row ends up inactive, with no ownership check of
the slot's event type against the caller. -/
theorem deleteAvailabilitySlot_ignores_caller (st : DBState) (slotId u1 u2 : Nat) :
    deleteAvailabilitySlot st slotId u1 = deleteAvailabilitySlot st slotId u2 ∧
    (st.slots.any (fun s => s.id == slotId) = true →
      (deleteAvailabilitySlot st slotId u1).1 = .deleted slotId ∧
      ∀ s ∈ (deleteAvailabilitySlot st slotId u1).2.slots,
        s.id = slotId → s.isActive = false) := by
  have hslots : (deleteAvailabilitySlot st slotId u1).2.slots =
      st.slots.map (fun s => if s.id == slotId then { s with isActive := false } else s) := by
    simp only [deleteAvailabilitySlot]
    split <;> rfl
  refine ⟨rfl, fun hany => ⟨by simp only [deleteAvailabilitySlot, hany, if_true], ?_⟩⟩
  intro s hs hid
  rw [hslots] at hs
  rcases List.mem_map.mp hs with ⟨x, hx, hxs⟩
  by_cases hxid : x.id = slotId
  · rw [← hxs]
    simp [hxid]
  · rw [← hxs] at hid
    simp [hxid] at hid

/-- Witness for C10: callers 99 and 7 deleting slot 31, which belongs to
user 7's event type — identical outcomes, and the row is deactivated. -/
theorem deleteAvailabilitySlot_ignores_caller_witness :
    deleteAvailabilitySlot slotStore 31 99 = deleteAvailabilitySlot slotStore 31 7 ∧
    (slotStore.slots.any (fun s => s.id == 31) = true →
      (deleteAvailabilitySlot slotStore 31 99).1 = .deleted 31 ∧
      ∀ s ∈ (deleteAvailabilitySlot slotStore 31 99).2.slots,
        s.id = 31 → s.isActive = false) :=
  deleteAvailabilitySlot_ignores_caller slotStore 31 99 7

end Amromeet
